import Mathlib

/-!
# The `run` command of compose-cli (`cli/cmd/run/run.go`)

A shallow embedding of `Command` and `runRun`.  The collaborators the command
calls (the API client, the container service, the console library, the launch
request builder) are fields of a `World`; every call `runRun` makes to one of
them, and every line it prints, is recorded in order in a list of `Event`s, so
that "is invoked once", "is never invoked" and "is printed" are statements
about that list.  The `context.Context` argument only carries cancellation and
is left out.
-/

namespace ComposeCli

/-! ## Data -/

/-- A Go `error` value that is not nil. -/
structure GoError where
  msg : String
  deriving DecidableEq, Repr

/-- A `float64`, as its IEEE-754 bit pattern. -/
structure Float64 where
  bits : Nat
  deriving DecidableEq, Repr

/-- The type of `opts.Memory` (a `pflag.Value`), declared in `cli/options/run`. -/
structure MemBytes where
  val : Int
  deriving DecidableEq, Repr

/-- The fields of `run.Opts` that `run.go` reads or binds a flag to. -/
structure Opts where
  Name : String
  Command : List String
  Publish : List String
  Labels : List String
  Volumes : List String
  Cpus : Float64
  Memory : MemBytes
  Detach : Bool
  Environment : List String
  EnvironmentFiles : List String
  RestartPolicyCondition : String
  DomainName : String
  deriving DecidableEq, Repr

/-- The zero value of `run.Opts`, the state of `var opts run.Opts`. -/
def Opts.zero : Opts :=
  { Name := "", Command := [], Publish := [], Labels := [], Volumes := [],
    Cpus := ⟨0⟩, Memory := ⟨0⟩, Detach := false, Environment := [],
    EnvironmentFiles := [], RestartPolicyCondition := "", DomainName := "" }

/-- The launch request `containers.ContainerConfig`: the identifier `runRun`
reads, with the image and command override the spec's data model gives it. -/
structure ContainerConfig where
  ID : String
  Image : String
  Command : List String
  deriving DecidableEq, Repr

/-- An `*os.File`, by descriptor. -/
structure File where
  fd : Nat
  deriving DecidableEq, Repr

/-- The file `os.Stdout`. -/
def Stdout : File := ⟨1⟩

/-- A `console.Console` obtained from a file. -/
structure Console where
  file : File
  deriving DecidableEq, Repr

/-- The result `console.WinSize` of `Console.Size`; both fields are `uint16`
in the library and are read modulo `2 ^ 16`. -/
structure WinSize where
  Height : Nat
  Width : Nat
  deriving DecidableEq, Repr

/-- The `io.Writer` values `runRun` builds: `os.Stdout` or the console. -/
inductive Writer where
  | file (f : File)
  | console (c : Console)
  deriving DecidableEq, Repr

/-- The fields of `containers.LogsRequest` that `runRun` sets. -/
structure LogsRequest where
  Follow : Bool
  Width : Int
  Writer : Option Writer
  deriving DecidableEq, Repr

/-- The zero value of `containers.LogsRequest`. -/
def LogsRequest.zero : LogsRequest := { Follow := false, Width := 0, Writer := none }

/-- Conversion of a `uint16` to Go's `int`, which is `bits` wide (32 or 64):
the value is zero-extended and read as a signed two's complement number. -/
def intOfUint16 (bits : Nat) (v : Nat) : Int :=
  let u : Nat := (v % 2 ^ 16) % 2 ^ bits
  if u < 2 ^ (bits - 1) then (u : Int) else (u : Int) - (2 ^ bits : Nat)

/-! ## Effects -/

/-- What `runRun` does to the outside, in program order. -/
inductive Event where
  | clientNew
  | toContainerConfig (opts : Opts) (image : String)
  | run (cfg : ContainerConfig)
  | consoleFromFile (f : File)
  | size (c : Console)
  | logs (name : String) (req : LogsRequest)
  | println (s : String)
  deriving DecidableEq, Repr

/-- A computation: the events it performed and the value it returned. -/
structure Eff (α : Type) where
  trace : List Event
  val : α

/-- Is the event a call of the container service's `Run`. -/
def Event.isRun : Event → Bool
  | .run _ => true
  | _ => false

/-- Is the event a call of the container service's `Logs`. -/
def Event.isLogs : Event → Bool
  | .logs _ _ => true
  | _ => false

/-- Is the event a call of `Console.Size`. -/
def Event.isSize : Event → Bool
  | .size _ => true
  | _ => false

/-- Is the event a line printed on standard output by `fmt.Println`. -/
def Event.isPrintln : Event → Bool
  | .println _ => true
  | _ => false

/-- The request of a call of `Logs`. -/
def Event.logsRequest : Event → Option LogsRequest
  | .logs _ req => some req
  | _ => none

/-- The container service of the API client: `Run` and `Logs` return nil
(`none`) or an error. -/
structure ContainerService where
  Run : ContainerConfig → Option GoError
  Logs : String → LogsRequest → Option GoError

/-- The client returned by `client.New`. -/
structure Client where
  ContainerService : ContainerService

/-- The collaborators of `runRun` and the width of `int` on the platform.
`toContainerConfig` is what the method call `opts.ToContainerConfig(image)`
returns.  The method is declared outside the translated files and is called on
the addressable variable `opts`, so it can store into it; `nameAfter` is the
`Name` that variable holds when the call has returned (`opts.Name` itself for
a builder that leaves its receiver alone, the identifier for one that stores
the generated identifier there).  `Name` is tracked because the request owns
an identifier the builder may generate and `runRun` hands `opts.Name` to `Logs`
after the call; the spec describes the builder as a transform of the options,
and the other fields are as the caller passed them. -/
structure World where
  intSize : Nat
  clientNew : Except GoError Client
  toContainerConfig : Opts → String → Except GoError ContainerConfig
  nameAfter : Opts → String → String
  consoleFromFile : File → Except GoError Console
  size : Console → Except GoError WinSize

/-- Modelled from the spec: `progress.Run` (package `progress`, not among the
translated files) is "a progress-reporting wrapper that brackets the submit
call", "treated as a pass-through decorator around submission": it runs the
function it is given once and returns what that returned. -/
def progressRun (pf : Eff (String × Option GoError)) : Eff (String × Option GoError) :=
  pf

/-! ## `runRun` -/

/-- The function `runRun`.  After the call of the builder, `opts` is the
variable as the call left it.  In the attached branch the writer `con` starts
as `os.Stdout` and becomes the console when standard output is one;
`req.Writer` is set to it before `Logs` is called. -/
def runRun (w : World) (image : String) (opts : Opts) : Eff (Option GoError) :=
  match w.clientNew with
  | .error err => ⟨[.clientNew], some err⟩
  | .ok c =>
    match w.toContainerConfig opts image with
    | .error err => ⟨[.clientNew, .toContainerConfig opts image], some err⟩
    | .ok containerConfig =>
      let before := [.clientNew, .toContainerConfig opts image]
      let opts := { opts with Name := w.nameAfter opts image }
      let r := progressRun
        ⟨[.run containerConfig], (containerConfig.ID, c.ContainerService.Run containerConfig)⟩
      let before := before ++ r.trace
      match r.val with
      | (_, some err) => ⟨before, some err⟩
      | (result, none) =>
        if !opts.Detach then
          let req : LogsRequest := { LogsRequest.zero with Follow := true }
          match w.consoleFromFile Stdout with
          | .ok con =>
            match w.size con with
            | .error err => ⟨before ++ [.consoleFromFile Stdout, .size con], some err⟩
            | .ok size =>
              let req := { req with Width := intOfUint16 w.intSize size.Width }
              let req := { req with Writer := some (.console con) }
              ⟨before ++ [.consoleFromFile Stdout, .size con, .logs opts.Name req],
                c.ContainerService.Logs opts.Name req⟩
          | .error _ =>
            let req := { req with Writer := some (.file Stdout) }
            ⟨before ++ [.consoleFromFile Stdout, .logs opts.Name req],
              c.ContainerService.Logs opts.Name req⟩
        else
          ⟨before ++ [.println result], none⟩

/-! ## The launch request builder -/

/-- Modelled from the spec: what `Opts.ToContainerConfig` (package
`cli/options/run`, not among the translated files) returns: it fails with a
validation error or produces a request that "owns a generated or
user-supplied identifier".  `validate` stands for the validation of the
options and `generated` for the identifier generated when no name is given. -/
def ToContainerConfig (validate : Opts → String → Option GoError) (generated : String)
    (opts : Opts) (image : String) : Except GoError ContainerConfig :=
  match validate opts image with
  | some err => .error err
  | none =>
    .ok { ID := if opts.Name = "" then generated else opts.Name,
          Image := image, Command := opts.Command }

/-! ## `Command` -/

/-- Modelled from the spec: the constant `containers.RestartPolicyNone`
(package `api/containers`, not among the translated files); the spec gives the
default of the restart flag as "none". -/
def RestartPolicyNone : String := "none"

/-- The field of `opts` a flag stores into (the pointer given at registration). -/
inductive OptsField where
  | Name | Command | Publish | Labels | Volumes | Cpus | Memory | Detach
  | Environment | EnvironmentFiles | RestartPolicyCondition | DomainName
  deriving DecidableEq, Repr

/-- The default value given when a flag is registered; `VarP` takes none and
keeps the current value of the variable. -/
inductive FlagDefault where
  | stringArray (v : List String)
  | string (v : String)
  | bool (v : Bool)
  | float64 (v : Float64)
  | current
  deriving DecidableEq, Repr

/-- A registered flag. -/
structure Flag where
  Name : String
  Shorthand : String
  Usage : String
  DefValue : FlagDefault
  Var : OptsField
  deriving DecidableEq, Repr

/-- A `pflag.FlagSet`: the flags in registration order. -/
structure FlagSet where
  interspersed : Bool
  formal : List Flag
  deriving DecidableEq, Repr

/-- The flag set of a new command. -/
def FlagSet.new : FlagSet := { interspersed := true, formal := [] }

/-- The setter `FlagSet.SetInterspersed`. -/
def FlagSet.SetInterspersed (fs : FlagSet) (b : Bool) : FlagSet :=
  { fs with interspersed := b }

/-- The lookup `FlagSet.Lookup`: the flag registered under a name. -/
def FlagSet.Lookup (fs : FlagSet) (name : String) : Option Flag :=
  fs.formal.find? (fun f => f.Name == name)

/-- Registration of a flag; `none` is the panic of the library on a name that
is already registered, a shorthand longer than one character, or a shorthand
that is already in use. -/
def FlagSet.AddFlag (fs : FlagSet) (f : Flag) : Option FlagSet :=
  if fs.formal.any (fun g => g.Name == f.Name) then none
  else if f.Shorthand == "" then some { fs with formal := fs.formal ++ [f] }
  else if f.Shorthand.length > 1 then none
  else if fs.formal.any (fun g => g.Shorthand == f.Shorthand) then none
  else some { fs with formal := fs.formal ++ [f] }

/-- The literal `1.` of type `float64`. -/
def Float64.one : Float64 := ⟨0x3FF0000000000000⟩

/-- The store a registration makes through the pointer it is given: the
default value is written into the variable (`StringArrayVarP`, `StringVar`,
`BoolVarP`, `Float64Var`); `VarP` writes nothing. -/
def Opts.store (o : Opts) : OptsField → FlagDefault → Opts
  | .Name, .string v => { o with Name := v }
  | .Publish, .stringArray v => { o with Publish := v }
  | .Labels, .stringArray v => { o with Labels := v }
  | .Volumes, .stringArray v => { o with Volumes := v }
  | .Cpus, .float64 v => { o with Cpus := v }
  | .Detach, .bool v => { o with Detach := v }
  | .Environment, .stringArray v => { o with Environment := v }
  | .EnvironmentFiles, .stringArray v => { o with EnvironmentFiles := v }
  | .RestartPolicyCondition, .string v => { o with RestartPolicyCondition := v }
  | .DomainName, .string v => { o with DomainName := v }
  | _, _ => o

/-- One registration call on the flags of the command: the default is stored
into the bound field of `opts` and the flag is added to the set. -/
def register (st : FlagSet × Opts) (f : Flag) : Option (FlagSet × Opts) :=
  match st.1.AddFlag f with
  | none => none
  | some fs => some (fs, st.2.store f.Var f.DefValue)

/-- The `*cobra.Command` built by `Command`: its static fields, its flags, and
the variable `opts` its `RunE` closure captures, as `Command` leaves it. -/
structure CobraCommand where
  Use : String
  Short : String
  MinimumNArgs : Nat
  Flags : FlagSet
  opts : Opts
  deriving DecidableEq, Repr

/-- The function `Command`; `AciContextType` is the constant
`store.AciContextType`, declared outside the translated files.  `none` is a
panic of a registration. -/
def Command (AciContextType : String) (contextType : String) : Option CobraCommand := do
  let st : FlagSet × Opts := (FlagSet.new.SetInterspersed false, Opts.zero)
  let st ← register st ⟨"publish", "p",
    "Publish a container's port(s). [HOST_PORT:]CONTAINER_PORT", .stringArray [], .Publish⟩
  let st ← register st ⟨"name", "", "Assign a name to the container", .string "", .Name⟩
  let st ← register st ⟨"label", "l", "Set meta data on a container", .stringArray [], .Labels⟩
  let st ← register st ⟨"volume", "v",
    "Volume. Ex: storageaccount/my_share[:/absolute/path/to/target][:ro]",
    .stringArray [], .Volumes⟩
  let st ← register st ⟨"detach", "d", "Run container in background and print container ID",
    .bool false, .Detach⟩
  let st ← register st ⟨"cpus", "", "Number of CPUs", .float64 Float64.one, .Cpus⟩
  let st ← register st ⟨"memory", "m", "Memory limit", .current, .Memory⟩
  let st ← register st ⟨"env", "e", "Set environment variables", .stringArray [], .Environment⟩
  let st ← register st ⟨"envFile", "",
    "Path to environment files to be translated as environment variables",
    .stringArray [], .EnvironmentFiles⟩
  let st ← register st ⟨"restart", "", "Restart policy to apply when a container exits",
    .string RestartPolicyNone, .RestartPolicyCondition⟩
  let st ← if contextType == AciContextType then
      register st ⟨"domainname", "", "Container NIS domain name", .string "", .DomainName⟩
    else pure st
  pure { Use := "run", Short := "Run a container", MinimumNArgs := 1, Flags := st.1,
         opts := st.2 }

/-- The call of `runRun` that the `RunE` closure makes. -/
structure RunRunCall where
  image : String
  opts : Opts
  deriving DecidableEq, Repr

/-- The body of the `RunE` closure up to its call of `runRun`: `opts` is the
captured variable as it stands when the handler starts; `none` is the panic of
`args[0]` on an empty list. -/
def RunECall (opts : Opts) (args : List String) : Option RunRunCall :=
  let opts := if args.length > 1 then { opts with Command := args.drop 1 } else opts
  match args with
  | [] => none
  | image :: _ => some ⟨image, opts⟩

/-- The `RunE` closure: the call it makes and what `runRun` does and returns. -/
def RunE (w : World) (opts : Opts) (args : List String) :
    Option (RunRunCall × Eff (Option GoError)) :=
  match RunECall opts args with
  | none => none
  | some call => some (call, runRun w call.image call.opts)

/-! ## Concrete inputs -/

/-- A service whose `Run` and `Logs` both succeed. -/
def okService : ContainerService := { Run := fun _ => none, Logs := fun _ _ => none }

/-- A world where standard output is a terminal 80 columns wide and the
builder accepts every option set, generates the identifier "generated" when
no name is given, and leaves the name of its receiver as it was. -/
def termWorld : World :=
  { intSize := 64,
    clientNew := .ok ⟨okService⟩,
    toContainerConfig := ToContainerConfig (fun _ _ => none) "generated",
    nameAfter := fun o _ => o.Name,
    consoleFromFile := fun f => .ok ⟨f⟩,
    size := fun _ => .ok ⟨24, 80⟩ }

/-- The same world with standard output redirected to a file. -/
def pipeWorld : World :=
  { termWorld with consoleFromFile := fun _ => .error ⟨"provided file is not a console"⟩ }

/-- Options of `run --name web`. -/
def webOpts : Opts := { Opts.zero with Name := "web" }

/-- Options of `run --name web -d`. -/
def webDetached : Opts := { webOpts with Detach := true }

/-- A service whose `Run` fails. -/
def failingRun : ContainerService :=
  { Run := fun _ => some ⟨"cannot create container"⟩, Logs := fun _ _ => none }

/-- A world where the submission of the launch request fails. -/
def rejectWorld : World := { termWorld with clientNew := .ok ⟨failingRun⟩ }

/-- A service whose log stream fails. -/
def failingLogs : ContainerService :=
  { Run := fun _ => none, Logs := fun _ _ => some ⟨"stream closed"⟩ }

/-- A world where the log stream fails. -/
def brokenStreamWorld : World := { termWorld with clientNew := .ok ⟨failingLogs⟩ }

/-- A world whose builder rejects every option set. -/
def invalidWorld : World :=
  { termWorld with
    toContainerConfig := ToContainerConfig (fun _ _ => some ⟨"invalid port spec"⟩) "generated" }

/-- A world where standard output is a terminal whose size cannot be read. -/
def noSizeWorld : World := { termWorld with size := fun _ => .error ⟨"ioctl failed"⟩ }

/-! ## The value of `Command` -/

/-- The ten flags `Command` registers for every context type, in order. -/
def commonFlags : List Flag :=
  [⟨"publish", "p", "Publish a container's port(s). [HOST_PORT:]CONTAINER_PORT",
      .stringArray [], .Publish⟩,
   ⟨"name", "", "Assign a name to the container", .string "", .Name⟩,
   ⟨"label", "l", "Set meta data on a container", .stringArray [], .Labels⟩,
   ⟨"volume", "v", "Volume. Ex: storageaccount/my_share[:/absolute/path/to/target][:ro]",
      .stringArray [], .Volumes⟩,
   ⟨"detach", "d", "Run container in background and print container ID", .bool false, .Detach⟩,
   ⟨"cpus", "", "Number of CPUs", .float64 Float64.one, .Cpus⟩,
   ⟨"memory", "m", "Memory limit", .current, .Memory⟩,
   ⟨"env", "e", "Set environment variables", .stringArray [], .Environment⟩,
   ⟨"envFile", "", "Path to environment files to be translated as environment variables",
      .stringArray [], .EnvironmentFiles⟩,
   ⟨"restart", "", "Restart policy to apply when a container exits",
      .string RestartPolicyNone, .RestartPolicyCondition⟩]

/-- The options a new command captures: the zero value with the defaults of
the flags stored through their pointers. -/
def defaultOpts : Opts :=
  { Opts.zero with Cpus := Float64.one, RestartPolicyCondition := RestartPolicyNone }

/-- The flag registered for the ACI context type only. -/
def domainnameFlag : Flag :=
  ⟨"domainname", "", "Container NIS domain name", .string "", .DomainName⟩

/-- No registration in `Command` panics: for the ACI context type the command
has the ten common flags and `domainname`. -/
theorem Command_aci (aci : String) :
    Command aci aci = some ⟨"run", "Run a container", 1,
      ⟨false, commonFlags ++ [domainnameFlag]⟩, defaultOpts⟩ := by
  unfold Command
  simp only [beq_self_eq_true, if_true]
  rfl

/-- No registration in `Command` panics: for any other context type the
command has the ten common flags only. -/
theorem Command_other (aci contextType : String) (h : contextType ≠ aci) :
    Command aci contextType = some ⟨"run", "Run a container", 1,
      ⟨false, commonFlags⟩, defaultOpts⟩ := by
  have hb : (contextType == aci) = false := by simpa using h
  unfold Command
  simp only [hb, Bool.false_eq_true, if_false]
  rfl

/-- The options captured by a new command are the zero value with the
defaults of the flags stored: one CPU and the restart policy "none". -/
theorem Command_opts (aci contextType : String) (cmd : CobraCommand)
    (hcmd : Command aci contextType = some cmd) : cmd.opts = defaultOpts := by
  by_cases h : contextType = aci
  · subst h
    rw [Command_aci] at hcmd
    cases hcmd
    rfl
  · rw [Command_other aci contextType h] at hcmd
    cases hcmd
    rfl

/-- No flag of the command stores into the `Command` field of the options. -/
theorem Command_binds_other_fields (aci contextType : String) (cmd : CobraCommand)
    (hcmd : Command aci contextType = some cmd) :
    ∀ f ∈ cmd.Flags.formal, f.Var ≠ OptsField.Command := by
  by_cases h : contextType = aci
  · subst h
    rw [Command_aci] at hcmd
    cases hcmd
    decide
  · rw [Command_other aci contextType h] at hcmd
    cases hcmd
    decide

/-- The conversion of a 16-bit width to `int` keeps its value. -/
theorem intOfUint16_eq (bits v : Nat) (hbits : bits = 32 ∨ bits = 64) (hv : v < 2 ^ 16) :
    intOfUint16 bits v = (v : Int) := by
  unfold intOfUint16
  rcases hbits with rfl | rfl
  · have h1 : v % 2 ^ 16 % 2 ^ 32 = v := by omega
    simp only [h1]
    rw [if_pos (by omega)]
  · have h1 : v % 2 ^ 16 % 2 ^ 64 = v := by omega
    simp only [h1]
    rw [if_pos (by omega)]

/-- The container `Logs` is called for is the name the variable `opts` holds
after the builder has returned, and the request that was built has then been
submitted. -/
theorem runRun_logs_name (w : World) (image : String) (opts : Opts) (cfg : ContainerConfig)
    (name : String) (req : LogsRequest) (hb : w.toContainerConfig opts image = .ok cfg)
    (hl : Event.logs name req ∈ (runRun w image opts).trace) :
    Event.run cfg ∈ (runRun w image opts).trace ∧ name = w.nameAfter opts image := by
  unfold runRun at hl ⊢
  cases hc : w.clientNew with
  | error e => simp [hc] at hl
  | ok c =>
    cases hr : c.ContainerService.Run cfg with
    | some e => simp [hc, hb, hr, progressRun] at hl
    | none =>
      cases hd : opts.Detach with
      | true => simp [hc, hb, hr, hd, progressRun] at hl
      | false =>
        simp only [hc, hb, hr, hd, progressRun] at hl ⊢
        cases hf : w.consoleFromFile Stdout with
        | error e =>
          simp only [hf] at hl ⊢
          simp at hl
          simp [hl.1]
        | ok con =>
          cases hs : w.size con with
          | error e => simp [hf, hs] at hl
          | ok size =>
            simp only [hf, hs] at hl ⊢
            simp at hl
            simp [hl.1]

/-! ## Theorems -/

/-- C1: a detached run in which client creation, the building of the launch
request and `Run` all succeed never calls `Logs`, never queries the terminal
size, prints the identifier of the launch request exactly once (it is the only
line printed) and returns nil. -/
theorem runRun_detach (w : World) (image : String) (opts : Opts) (c : Client)
    (cfg : ContainerConfig) (hd : opts.Detach = true) (hc : w.clientNew = .ok c)
    (hb : w.toContainerConfig opts image = .ok cfg)
    (hr : c.ContainerService.Run cfg = none) :
    (runRun w image opts).trace.filter Event.isLogs = [] ∧
    (runRun w image opts).trace.filter Event.isSize = [] ∧
    (runRun w image opts).trace.filter Event.isPrintln = [Event.println cfg.ID] ∧
    (runRun w image opts).val = none := by
  simp [runRun, progressRun, hd, hc, hb, hr, Event.isLogs, Event.isSize, Event.isPrintln]

/-- Witness of C1 on `run --name web -d alpine`. -/
theorem runRun_detach_witness :
    (runRun termWorld "alpine" webDetached).trace.filter Event.isLogs = [] ∧
    (runRun termWorld "alpine" webDetached).trace.filter Event.isSize = [] ∧
    (runRun termWorld "alpine" webDetached).trace.filter Event.isPrintln
      = [Event.println "web"] ∧
    (runRun termWorld "alpine" webDetached).val = none :=
  runRun_detach termWorld "alpine" webDetached ⟨okService⟩ ⟨"web", "alpine", []⟩ rfl rfl rfl rfl

/-- C2: when `Run` fails with `e`, `runRun` returns exactly `e`, `Run` has been
called exactly once, nothing is printed and `Logs` is never called, whatever
`opts.Detach` is. -/
theorem runRun_submit_error (w : World) (image : String) (opts : Opts) (c : Client)
    (cfg : ContainerConfig) (e : GoError) (hc : w.clientNew = .ok c)
    (hb : w.toContainerConfig opts image = .ok cfg)
    (hr : c.ContainerService.Run cfg = some e) :
    (runRun w image opts).val = some e ∧
    (runRun w image opts).trace.filter Event.isRun = [Event.run cfg] ∧
    (runRun w image opts).trace.filter Event.isPrintln = [] ∧
    (runRun w image opts).trace.filter Event.isLogs = [] := by
  simp [runRun, progressRun, hc, hb, hr, Event.isRun, Event.isLogs, Event.isPrintln]

/-- Witness of C2 on `run --name web alpine` against a backend that rejects
the container. -/
theorem runRun_submit_error_witness :
    (runRun rejectWorld "alpine" webOpts).val = some ⟨"cannot create container"⟩ ∧
    (runRun rejectWorld "alpine" webOpts).trace.filter Event.isRun
      = [Event.run ⟨"web", "alpine", []⟩] ∧
    (runRun rejectWorld "alpine" webOpts).trace.filter Event.isPrintln = [] ∧
    (runRun rejectWorld "alpine" webOpts).trace.filter Event.isLogs = [] :=
  runRun_submit_error rejectWorld "alpine" webOpts ⟨failingRun⟩ ⟨"web", "alpine", []⟩
    ⟨"cannot create container"⟩ rfl rfl rfl

/-- C3: the `RunE` handler of a freshly built command (the `Command` field of
the captured options is still the one `Command` left, whatever the flags stored
in the other fields), given at least one argument, calls `runRun` with the
image `args[0]`; the command override it passes is empty when there is one
argument, and is the arguments after the first, in order, `N - 1` of them,
when there are `N > 1`. -/
theorem RunE_arguments (w : World) (aci contextType : String) (cmd : CobraCommand)
    (opts : Opts) (args : List String) (hcmd : Command aci contextType = some cmd)
    (hfresh : opts.Command = cmd.opts.Command) (hlen : 1 ≤ args.length) :
    ∃ call : RunRunCall,
      RunE w opts args = some (call, runRun w call.image call.opts) ∧
      some call.image = args[0]? ∧
      (args.length = 1 → call.opts.Command = []) ∧
      (1 < args.length →
        call.opts.Command.length = args.length - 1 ∧
        ∀ i, i < args.length - 1 → call.opts.Command[i]? = args[i + 1]?) := by
  have hzero : cmd.opts = defaultOpts := Command_opts aci contextType cmd hcmd
  rw [hzero] at hfresh
  cases args with
  | nil => simp at hlen
  | cons image rest =>
    cases rest with
    | nil =>
      refine ⟨⟨image, opts⟩, ?_, ?_, ?_, ?_⟩
      · simp [RunE, RunECall]
      · simp
      · intro _; simpa [defaultOpts, Opts.zero] using hfresh
      · intro h; simp at h
    | cons a rest =>
      refine ⟨⟨image, { opts with Command := a :: rest }⟩, ?_, ?_, ?_, ?_⟩
      · simp [RunE, RunECall]
      · simp
      · intro h; simp at h
      · intro _; simp

/-- Witness of C3 on `run alpine echo hi`. -/
theorem RunE_arguments_witness :
    ∃ call : RunRunCall,
      RunE termWorld defaultOpts ["alpine", "echo", "hi"]
        = some (call, runRun termWorld call.image call.opts) ∧
      some call.image = ["alpine", "echo", "hi"][0]? ∧
      (["alpine", "echo", "hi"].length = 1 → call.opts.Command = []) ∧
      (1 < ["alpine", "echo", "hi"].length →
        call.opts.Command.length = ["alpine", "echo", "hi"].length - 1 ∧
        ∀ i, i < ["alpine", "echo", "hi"].length - 1 →
          call.opts.Command[i]? = ["alpine", "echo", "hi"][i + 1]?) :=
  RunE_arguments termWorld "aci" "moby"
    ⟨"run", "Run a container", 1, ⟨false, commonFlags⟩, defaultOpts⟩
    defaultOpts ["alpine", "echo", "hi"] (Command_other "aci" "moby" (by decide)) rfl (by decide)

/-- C4: when an attached run reaches the call of `Logs`, what `runRun` returns
is exactly what that call returned, nil or the error, and `runRun` prints
nothing (so not the identifier) on standard output. -/
theorem runRun_returns_logs (w : World) (image : String) (opts : Opts) (name : String)
    (req : LogsRequest) (hd : opts.Detach = false)
    (hl : Event.logs name req ∈ (runRun w image opts).trace) :
    ∃ c : Client, w.clientNew = .ok c ∧
      (runRun w image opts).val = c.ContainerService.Logs name req ∧
      (runRun w image opts).trace.filter Event.isPrintln = [] := by
  unfold runRun at hl ⊢
  cases hc : w.clientNew with
  | error e => simp [hc] at hl
  | ok c =>
    refine ⟨c, rfl, ?_⟩
    cases hb : w.toContainerConfig opts image with
    | error e => simp [hc, hb] at hl
    | ok cfg =>
      cases hr : c.ContainerService.Run cfg with
      | some e => simp [hc, hb, hr, progressRun] at hl
      | none =>
        simp only [hc, hb, hr, hd, progressRun] at hl ⊢
        cases hf : w.consoleFromFile Stdout with
        | error e =>
          simp only [hf] at hl ⊢
          simp at hl
          obtain ⟨rfl, rfl⟩ := hl
          simp [Event.isPrintln]
        | ok con =>
          cases hs : w.size con with
          | error e => simp [hf, hs] at hl
          | ok size =>
            simp only [hf, hs] at hl ⊢
            simp at hl
            obtain ⟨rfl, rfl⟩ := hl
            simp [Event.isPrintln]

/-- Witness of C4 on `run --name web alpine` with a log stream that fails. -/
theorem runRun_returns_logs_witness :
    ∃ c : Client, brokenStreamWorld.clientNew = .ok c ∧
      (runRun brokenStreamWorld "alpine" webOpts).val
        = c.ContainerService.Logs "web" ⟨true, 80, some (.console ⟨Stdout⟩)⟩ ∧
      (runRun brokenStreamWorld "alpine" webOpts).trace.filter Event.isPrintln = [] :=
  runRun_returns_logs brokenStreamWorld "alpine" webOpts "web"
    ⟨true, 80, some (.console ⟨Stdout⟩)⟩ rfl (by decide)

/-- C5: in an attached run whose submission succeeds while standard output is
not a terminal (`ConsoleFromFile` fails), the terminal size is not queried,
`Logs` is called exactly once, with a request whose `Follow` is true, whose
`Width` is zero and whose `Writer` is standard output, and `runRun` returns
what `Logs` returned: the failure of `ConsoleFromFile` is not an error. -/
theorem runRun_not_a_terminal (w : World) (image : String) (opts : Opts) (c : Client)
    (cfg : ContainerConfig) (e : GoError) (hd : opts.Detach = false)
    (hc : w.clientNew = .ok c) (hb : w.toContainerConfig opts image = .ok cfg)
    (hr : c.ContainerService.Run cfg = none) (hf : w.consoleFromFile Stdout = .error e) :
    (runRun w image opts).trace.filter Event.isSize = [] ∧
    (runRun w image opts).trace.filterMap Event.logsRequest
      = [{ Follow := true, Width := 0, Writer := some (.file Stdout) }] ∧
    (runRun w image opts).val
      = c.ContainerService.Logs (w.nameAfter opts image)
          { Follow := true, Width := 0, Writer := some (.file Stdout) } := by
  simp [runRun, progressRun, hd, hc, hb, hr, hf, Event.isSize, Event.logsRequest,
    LogsRequest.zero]

/-- Witness of C5 on `run --name web alpine` with standard output redirected. -/
theorem runRun_not_a_terminal_witness :
    (runRun pipeWorld "alpine" webOpts).trace.filter Event.isSize = [] ∧
    (runRun pipeWorld "alpine" webOpts).trace.filterMap Event.logsRequest
      = [{ Follow := true, Width := 0, Writer := some (.file Stdout) }] ∧
    (runRun pipeWorld "alpine" webOpts).val
      = okService.Logs (pipeWorld.nameAfter webOpts "alpine")
          { Follow := true, Width := 0, Writer := some (.file Stdout) } :=
  runRun_not_a_terminal pipeWorld "alpine" webOpts ⟨okService⟩ ⟨"web", "alpine", []⟩
    ⟨"provided file is not a console"⟩ rfl rfl rfl rfl rfl

/-- C6: in an attached run whose submission succeeds while standard output is
a terminal whose size query gives a 16-bit width `wd`, `Logs` is called exactly
once, with a request whose `Follow` is true, whose `Width` is `wd` itself (the
conversion to `int`, 32 or 64 bits wide, changes nothing) and whose `Writer` is
the console. -/
theorem runRun_terminal_width (w : World) (image : String) (opts : Opts) (c : Client)
    (cfg : ContainerConfig) (con : Console) (sz : WinSize) (wd : Nat)
    (hint : w.intSize = 32 ∨ w.intSize = 64) (hd : opts.Detach = false)
    (hc : w.clientNew = .ok c) (hb : w.toContainerConfig opts image = .ok cfg)
    (hr : c.ContainerService.Run cfg = none) (hf : w.consoleFromFile Stdout = .ok con)
    (hs : w.size con = .ok sz) (hw : sz.Width = wd) (hwd : wd < 2 ^ 16) :
    (runRun w image opts).trace.filterMap Event.logsRequest
      = [{ Follow := true, Width := (wd : Int), Writer := some (.console con) }] := by
  subst hw
  simp [runRun, progressRun, hd, hc, hb, hr, hf, hs, Event.logsRequest,
    LogsRequest.zero, intOfUint16_eq w.intSize sz.Width hint hwd]

/-- Witness of C6 on `run --name web alpine` in a terminal 80 columns wide. -/
theorem runRun_terminal_width_witness :
    (runRun termWorld "alpine" webOpts).trace.filterMap Event.logsRequest
      = [{ Follow := true, Width := ((80 : Nat) : Int), Writer := some (.console ⟨Stdout⟩) }] :=
  runRun_terminal_width termWorld "alpine" webOpts ⟨okService⟩ ⟨"web", "alpine", []⟩
    ⟨Stdout⟩ ⟨24, 80⟩ 80 (Or.inr rfl) rfl rfl rfl rfl rfl rfl rfl (by decide)

/-- C8: when the client is created and the building of the launch request
fails with `e`, `runRun` returns exactly `e`, and neither `Run` nor `Logs` is
called and nothing is printed. -/
theorem runRun_build_error (w : World) (image : String) (opts : Opts) (c : Client)
    (e : GoError) (hc : w.clientNew = .ok c)
    (hb : w.toContainerConfig opts image = .error e) :
    (runRun w image opts).val = some e ∧
    (runRun w image opts).trace.filter Event.isRun = [] ∧
    (runRun w image opts).trace.filter Event.isLogs = [] ∧
    (runRun w image opts).trace.filter Event.isPrintln = [] := by
  simp [runRun, hc, hb, Event.isRun, Event.isLogs, Event.isPrintln]

/-- Witness of C8 on `run --name web alpine` with options the builder rejects. -/
theorem runRun_build_error_witness :
    (runRun invalidWorld "alpine" webOpts).val = some ⟨"invalid port spec"⟩ ∧
    (runRun invalidWorld "alpine" webOpts).trace.filter Event.isRun = [] ∧
    (runRun invalidWorld "alpine" webOpts).trace.filter Event.isLogs = [] ∧
    (runRun invalidWorld "alpine" webOpts).trace.filter Event.isPrintln = [] :=
  runRun_build_error invalidWorld "alpine" webOpts ⟨okService⟩ ⟨"invalid port spec"⟩ rfl rfl

/-- C9: for every context type, `Command` registers the flags publish, name,
label, volume, detach, cpus, memory, env, envFile and restart, the default of
restart being `RestartPolicyNone` and that of detach false, and it registers
domainname exactly when the context type is the ACI one. -/
theorem Command_flags (aci contextType : String) :
    ∃ cmd : CobraCommand, Command aci contextType = some cmd ∧
      (∀ name ∈ ["publish", "name", "label", "volume", "detach", "cpus", "memory", "env",
          "envFile", "restart"], (cmd.Flags.Lookup name).isSome = true) ∧
      (cmd.Flags.Lookup "restart").map Flag.DefValue
        = some (FlagDefault.string RestartPolicyNone) ∧
      (cmd.Flags.Lookup "detach").map Flag.DefValue = some (FlagDefault.bool false) ∧
      ((cmd.Flags.Lookup "domainname").isSome = true ↔ contextType = aci) := by
  by_cases h : contextType = aci
  · subst h
    refine ⟨_, Command_aci contextType, by decide, by decide, by decide, ?_⟩
    exact ⟨fun _ => rfl, fun _ => by decide⟩
  · refine ⟨_, Command_other aci contextType h, by decide, by decide, by decide, ?_⟩
    exact ⟨fun hh => absurd hh (by decide), fun hh => absurd hh h⟩

/-- C10: in an attached run whose submission succeeds while standard output is
a terminal whose size query fails with `e`, `runRun` returns exactly `e` and
`Logs` is never called, although the launch request has been submitted. -/
theorem runRun_size_error (w : World) (image : String) (opts : Opts) (c : Client)
    (cfg : ContainerConfig) (con : Console) (e : GoError) (hd : opts.Detach = false)
    (hc : w.clientNew = .ok c) (hb : w.toContainerConfig opts image = .ok cfg)
    (hr : c.ContainerService.Run cfg = none) (hf : w.consoleFromFile Stdout = .ok con)
    (hs : w.size con = .error e) :
    (runRun w image opts).val = some e ∧
    (runRun w image opts).trace.filter Event.isLogs = [] ∧
    (runRun w image opts).trace.filter Event.isRun = [Event.run cfg] := by
  simp [runRun, progressRun, hd, hc, hb, hr, hf, hs, Event.isLogs, Event.isRun]

/-- Witness of C10 on `run --name web alpine` in a terminal whose size cannot
be read. -/
theorem runRun_size_error_witness :
    (runRun noSizeWorld "alpine" webOpts).val = some ⟨"ioctl failed"⟩ ∧
    (runRun noSizeWorld "alpine" webOpts).trace.filter Event.isLogs = [] ∧
    (runRun noSizeWorld "alpine" webOpts).trace.filter Event.isRun
      = [Event.run ⟨"web", "alpine", []⟩] :=
  runRun_size_error noSizeWorld "alpine" webOpts ⟨okService⟩ ⟨"web", "alpine", []⟩ ⟨Stdout⟩
    ⟨"ioctl failed"⟩ rfl rfl rfl rfl rfl rfl

end ComposeCli
